import Mathlib

/-!
# A verification development of `pvlib.iotools.mesor`

This file gives a shallow embedding of the MESOR file parser
(`read_mesor` / `parse_mesor` in `src/pvlib/iotools/mesor.py`) and proves
properties of it.  The input stream is modelled as a `List String` of
newline-stripped lines (Python's `readline().rstrip('\n')`); reaching the
end of the list models the stream being at EOF, where `readline()` returns
`''` forever.  Python string operations are modelled over `List Char`
(Lean's `String.splitOn` and `Rat` arithmetic do not reduce in the kernel),
and the numeric values produced by Python's `float` are modelled as exact
reduced fractions.
-/

namespace Mesor

/-! ## Python string primitives -/

/-- Python `p.startswith(q)`. -/
def pyStartsW (s p : String) : Bool := p.toList.isPrefixOf s.toList

/-- Python `s.split()` (split on runs of whitespace, discarding empties). -/
def pySplit (s : String) : List String :=
  ((s.toList.splitOnP Char.isWhitespace).filter (· ≠ [])).map List.asString

/-- Auxiliary fuelled splitter for `s.split(sep)` with a non-empty separator.
Fuel `s.length + 1` always suffices because every recursive call consumes at
least one character of the subject. -/
def splitOnAuxL (sep : List Char) : Nat → List Char → List Char → List (List Char)
  | 0, acc, s => [acc.reverse ++ s]
  | _, acc, [] => [acc.reverse]
  | fuel+1, acc, c :: cs =>
    if sep.isPrefixOf (c :: cs) then
      acc.reverse :: splitOnAuxL sep fuel [] ((c :: cs).drop sep.length)
    else
      splitOnAuxL sep fuel (c :: acc) cs

/-- Python `s.split(sep)` for a non-empty separator (keeps empty pieces). -/
def pySplitOn (s sep : String) : List String :=
  (splitOnAuxL sep.toList (s.toList.length + 1) [] s.toList).map List.asString

/-- Python `sep.join(parts)`. -/
def pyJoin (sep : String) (parts : List String) : String :=
  (List.intercalate sep.toList (parts.map String.toList)).asString

/-- Auxiliary fuelled rewriter for `s.replace(old, new)`. -/
def replAux (old new : List Char) : Nat → List Char → List Char
  | 0, s => s
  | _, [] => []
  | fuel+1, c :: cs =>
    if old.isPrefixOf (c :: cs) then
      new ++ replAux old new fuel ((c :: cs).drop old.length)
    else
      c :: replAux old new fuel cs

/-- Python `s.replace(old, new)` (all non-overlapping occurrences,
left to right). -/
def pyReplace (s old new : String) : String :=
  (replAux old.toList new.toList (s.toList.length + 1) s.toList).asString

/-- Python `s.lstrip('#')`. -/
def lstripHash (s : String) : String := (s.toList.dropWhile (· = '#')).asString

/-- Python `s.strip()` (remove leading and trailing whitespace). -/
def pyStrip (s : String) : String :=
  ((s.toList.dropWhile Char.isWhitespace).reverse.dropWhile Char.isWhitespace).reverse.asString

/-! ## Exact decimal values

Python's `float` on the strings occurring in MESOR files produces decimal
values; we model them exactly as reduced fractions `num / den` so that value
equality is structural equality.  (`Rat` is avoided because its arithmetic,
going through `Nat.gcd`, is not kernel-reducible.) -/

/-- Fuelled Euclidean gcd; fuel `a + 1` suffices since the first argument
strictly decreases. -/
def gcdF : Nat → Nat → Nat → Nat
  | 0, a, b => a + b
  | fuel+1, a, b => match a with
    | 0 => b
    | _ => gcdF fuel (b % a) a

/-- An exact rational value, kept in lowest terms by construction. -/
structure Frac where
  num : Int
  den : Nat
  deriving DecidableEq, Repr

/-- Build the reduced fraction `n / d` (for `d ≠ 0`). -/
def normFrac (n : Int) (d : Nat) : Frac :=
  let g := gcdF (n.natAbs + 1) n.natAbs d
  ⟨n / (g : Int), d / g⟩

/-- Numeric value of a string of decimal digits. -/
def natOfDigits (l : List Char) : Nat :=
  l.foldl (fun a c => a * 10 + (c.toNat - 48)) 0

/-- Value of a decimal literal with optional negation: integer digits `ip`,
fraction digits `fp` and decimal exponent `e`. -/
def fracOfParts (neg : Bool) (ip fp : List Char) (e : Int) : Frac :=
  let m : Int := (natOfDigits (ip ++ fp) : Int)
  let m : Int := if neg then -m else m
  let e2 : Int := e - (fp.length : Int)
  if 0 ≤ e2 then normFrac (m * (10 : Int) ^ e2.toNat) 1
  else normFrac m ((10 : Nat) ^ (-e2).toNat)

/-- Parse the exponent part of a `float` literal (after the `e`/`E`):
an optional sign followed by at least one digit. -/
def pyExp (l : List Char) : Option Int :=
  match l with
  | '+' :: r => if r ≠ [] ∧ r.all Char.isDigit then some ((natOfDigits r : Int)) else none
  | '-' :: r => if r ≠ [] ∧ r.all Char.isDigit then some (-(natOfDigits r : Int)) else none
  | r => if r ≠ [] ∧ r.all Char.isDigit then some ((natOfDigits r : Int)) else none

/-- Parse the mantissa of a `float` literal: `digits [. digits]` or
`. digits`, returning integer digits, fraction digits and the rest of the
input. -/
def pyMant (l : List Char) : Option (List Char × List Char × List Char) :=
  let ip := l.takeWhile Char.isDigit
  let r1 := l.dropWhile Char.isDigit
  match r1 with
  | '.' :: r2 =>
    let fp := r2.takeWhile Char.isDigit
    let r3 := r2.dropWhile Char.isDigit
    if ip = [] ∧ fp = [] then none else some (ip, fp, r3)
  | _ => if ip = [] then none else some (ip, [], r1)

/-- Sign and body of a `float` literal. -/
def pyFloatAux (l : List Char) : Option Frac :=
  let sb : Bool × List Char :=
    match l with
    | '+' :: r => (false, r)
    | '-' :: r => (true, r)
    | r => (false, r)
  match pyMant sb.2 with
  | none => none
  | some (ip, fp, rest) =>
    match rest with
    | [] => some (fracOfParts sb.1 ip fp 0)
    | c :: r =>
      if c = 'e' ∨ c = 'E' then (pyExp r).map (fracOfParts sb.1 ip fp) else none

/-- Python `float(s)` on the finite-decimal fragment: surrounding whitespace
is stripped, then an optional sign, decimal digits with an optional point,
and an optional exponent are accepted.  (`inf`/`nan` spellings and digit
underscores, which the MESOR format does not use, are outside the modelled
fragment.)  `none` models `ValueError`. -/
def pyFloat (s : String) : Option Frac := pyFloatAux (pyStrip s).toList

/-! ## The metadata record -/

/-- A metadata value: instrument parameters are floats for the allow-listed
parameter names and strings otherwise. -/
inductive PyVal
  | str (s : String)
  | num (q : Frac)
  deriving DecidableEq, Repr

/-- The `meta['timezone']` field.  Its initial value in the source is the
empty dict `{}` (not a string); a `#timezone` header line replaces it with a
string. -/
inductive TzField
  | initDict
  | str (s : String)
  deriving DecidableEq, Repr

/-- Insertion-ordered dict update, as for a Python `dict`: an existing key
keeps its position, a new key is appended. -/
def updAssoc {α : Type} (l : List (String × α)) (k : String) (v : α) : List (String × α) :=
  if k ∈ l.map Prod.fst then
    l.map (fun p => if p.1 = k then (k, v) else p)
  else l ++ [(k, v)]

/-- The `meta` dictionary built by `parse_mesor`. -/
structure Meta where
  format : String
  IPR : List (String × String)
  location : List (String × String)
  spectral : List (String × String)
  comments : List String
  timezone : TzField
  instruments : List (String × List (String × PyVal))
  channels : List (String × String)
  deriving DecidableEq, Repr

/-- The initial `meta` dictionary, with `format` taken from the first line. -/
def initMeta (fmt : String) : Meta :=
  { format := fmt, IPR := [], location := [], spectral := [], comments := [],
    timezone := .initDict, instruments := [], channels := [] }

deriving instance DecidableEq for Except

/-- Python exceptions that the parse can raise. -/
inductive PyErr
  | indexError
  | valueError (s : String)
  | typeError
  | keyError (k : String)
  | attributeError (s : String)
  | duplicateNames
  | emptyData
  | tooManyFields (row : List String)
  | unknownTimeZone (s : String)
  deriving DecidableEq, Repr

/-- Python `l[i]`, raising `IndexError` when out of range. -/
def pyIx {α : Type} (l : List α) (i : Nat) : Except PyErr α :=
  match l.get? i with
  | some a => .ok a
  | none => .error .indexError

/-! ## The header scanner -/

/-- The parameter name extracted by the `#comment instrument` branch:
`' '.join(line.split()[3:]).split(':')[0]`. -/
def instrumentParam (line : String) : String :=
  (pySplitOn (pyJoin " " ((pySplit line).drop 3)) ":").headD ""

/-- The parameter value extracted by the `#comment instrument` branch:
`' '.join(':'.join(line.split(':')[1:]).split())` — everything after the
first `:` of the whole line, whitespace-normalized. -/
def instrumentValue (line : String) : String :=
  pyJoin " " (pySplit (pyJoin ":" ((pySplitOn line ":").drop 1)))

/-- Parameter names whose values are converted with `float`. -/
def numericParams : List String := ["mult_cc", "off_cc", "sensitivity"]

/-- `meta['instruments']` after `if instrument_id not in meta['instruments']:
meta['instruments'][instrument_id] = {}`. -/
def instFamily (meta : Meta) (instId : String) : List (String × List (String × PyVal)) :=
  if instId ∈ meta.instruments.map Prod.fst then meta.instruments
  else meta.instruments ++ [(instId, [])]

/-- The instrument parameter value, `float`-converted exactly when the
parameter name is in `numericParams` (`ValueError` when not numeric). -/
def instParamVal (line : String) : Except PyErr PyVal :=
  if instrumentParam line ∈ numericParams then
    match pyFloat (instrumentValue line) with
    | some q => .ok (.num q)
    | none => .error (.valueError (instrumentValue line))
  else .ok (.str (instrumentValue line))

/-- The `#comment instrument` branch of the header scanner:
`line.split()[2]` is the instrument id, the parameter name is the text
before the first `:`, and the converted value is stored under
`instruments[instrument_id][parameter]`. -/
def instrumentStep (line : String) (meta : Meta) : Except PyErr Meta := do
  let instId ← pyIx (pySplit line) 2
  let val ← instParamVal line
  .ok { meta with instruments :=
    (updAssoc (instFamily meta instId) instId
      (updAssoc ((((instFamily meta instId).find? (fun q => q.1 = instId)).map Prod.snd).getD [])
        (instrumentParam line) val)) }

/-- Outcome of one step of the header loop. -/
inductive HOut
  | cont (m : Meta) (names : List String)
  | stop
  deriving Repr

/-- One iteration of the header `while` loop, dispatching on the line's
prefix in the order of the source's `elif` chain.  A line matching no branch
(including the empty line that `readline` keeps returning at EOF) is
consumed with no state change. -/
def headerLine (line : String) (meta : Meta) (names : List String) :
    Except PyErr HOut :=
  if pyStartsW line "#comment -" then .ok (.cont meta names)
  else if pyStartsW line "#IPR" then do
    let t0 ← pyIx (pySplit line) 0
    .ok (.cont { meta with
      IPR := updAssoc meta.IPR (pyReplace t0 "#IPR." "")
        (pyJoin " " ((pySplit line).drop 1)) } names)
  else if pyStartsW line "#timezone" then do
    let t1 ← pyIx (pySplit line) 1
    .ok (.cont { meta with timezone := .str t1 } names)
  else if pyStartsW line "#location" then do
    let seg ← pyIx (pySplitOn line ".") 1
    let k0 ← pyIx (pySplit seg) 0
    let v ← pyIx (pySplit line) 1
    .ok (.cont { meta with location := updAssoc meta.location (pyReplace k0 ":" "") v } names)
  else if pyStartsW line "#spectral" then do
    let seg ← pyIx (pySplitOn line ".") 1
    let k0 ← pyIx (pySplit seg) 0
    .ok (.cont { meta with
      spectral := updAssoc meta.spectral k0 (pyJoin " " ((pySplit line).drop 1)) } names)
  else if pyStartsW line "#channel" then do
    let ch ← pyIx (pySplit line) 1
    .ok (.cont { meta with
      channels := updAssoc meta.channels ch (pyJoin " " ((pySplit line).drop 2)) }
      (names ++ [ch]))
  else if pyStartsW line "#comment instrument" then do
    let m' ← instrumentStep line meta
    .ok (.cont m' names)
  else if pyStartsW line "#comment" then
    .ok (.cont { meta with comments := meta.comments ++ [pyJoin " " ((pySplit line).drop 1)] } names)
  else if pyStartsW line "#begindata" then .ok .stop
  else .ok (.cont meta names)

/-- Outcome of the header loop as a whole.  `diverges` models the source's
behaviour at end of stream: `readline()` returns `''` forever, `''` matches
no branch of the `elif` chain, and the `while True` loop never exits. -/
inductive ScanOut
  | diverges
  | fail (e : PyErr)
  | done (m : Meta) (names : List String) (rest : List String)
  deriving DecidableEq, Repr

/-- The header `while True` loop of `parse_mesor`. -/
def scanHeader : List String → Meta → List String → ScanOut
  | [], _, _ => .diverges
  | l :: ls, m, ns =>
    match headerLine l m ns with
    | .error e => .fail e
    | .ok .stop => .done m ns ls
    | .ok (.cont m' ns') => scanHeader ls m' ns'

/-! ## The table builder (`pd.read_csv` and the steps after it)

`pd.read_csv(fbuf, header=None, names=names, delim_whitespace=True,
comment='#', na_values=[-9999, -999.9])` is modelled on the fragment the
parser exercises: whitespace-tokenized rows, `#` starting a comment,
blank/comment-only lines skipped, pandas' default NA strings plus the
stringified `na_values`, rows shorter than `names` padded with NA on the
right, duplicate `names` rejected, and an empty data section rejected.
Rows *wider* than `names` are outside the modelled fragment and are mapped
to a distinguished error: depending on the row pattern, pandas either
raises a tokenizer error or — when the first data row is itself wider —
absorbs the extra leading fields of every row as the implicit row index and
succeeds.  No theorem below concerns over-wide rows, and no theorem settles
their behaviour.  Per-column dtype inference is modelled per cell: a field
is NA if its text is an NA token, numeric if `float` accepts it, and kept
as text otherwise. -/

/-- One cell of the data table. -/
inductive Cell
  | na
  | num (q : Frac)
  | str (s : String)
  deriving DecidableEq, Repr

/-- pandas' default NA strings together with `na_values=[-9999, -999.9]` as
stringified by pandas (`'-9999'`, `'-9999.0'`, `'-999.9'`). -/
def naTokens : List String :=
  ["", "#N/A", "#N/A N/A", "#NA", "-1.#IND", "-1.#QNAN", "-NaN", "-nan",
   "1.#IND", "1.#QNAN", "<NA>", "N/A", "NA", "NULL", "NaN", "None", "n/a",
   "nan", "null", "-9999", "-9999.0", "-999.9"]

/-- Convert one whitespace-delimited field into a cell. -/
def mkCell (t : String) : Cell :=
  if t ∈ naTokens then .na
  else match pyFloat t with
    | some q => .num q
    | none => .str t

/-- Truncate a data line at the `comment='#'` character. -/
def stripComment (l : String) : String := (pySplitOn l "#").headD l

/-- The whitespace-tokenized data rows: comment parts removed, blank and
comment-only lines skipped. -/
def dataRows (lines : List String) : List (List String) :=
  (lines.map (fun l => pySplit (stripComment l))).filter (· ≠ [])

/-- The frame produced by `pd.read_csv`. -/
structure RawTable where
  names : List String
  rows : List (List Cell)
  deriving DecidableEq, Repr

/-- Convert tokenized rows to cell rows against a fixed column count:
short rows are NA-padded on the right.  Over-wide rows are mapped to an
error marking the unmodelled region (pandas may instead succeed via its
implicit-index rule when the first data row is over-wide); no theorem
depends on this branch. -/
def buildRows (width : Nat) : List (List String) → Except PyErr (List (List Cell))
  | [] => .ok []
  | r :: rs =>
    if width < r.length then .error (.tooManyFields r)
    else do
      let rest ← buildRows width rs
      .ok ((r.map mkCell ++ List.replicate (width - r.length) .na) :: rest)

/-- The `pd.read_csv` call of `parse_mesor`. -/
def read_csv (names : List String) (lines : List String) : Except PyErr RawTable :=
  if names.Nodup then
    if dataRows lines = [] then .error .emptyData
    else do
      let rows ← buildRows names.length (dataRows lines)
      .ok ⟨names, rows⟩
  else .error .duplicateNames

/-- Column access `data[c]`, raising `KeyError` for an unknown column. -/
def colVals (rt : RawTable) (c : String) : Except PyErr (List Cell) :=
  if c ∈ rt.names then .ok (rt.rows.map (fun r => r.getD (rt.names.indexOf c) .na))
  else .error (.keyError c)

/-- String value of a cell; adding a non-string cell to a string is a
`TypeError`. -/
def cellToStr : Cell → Except PyErr String
  | .str s => .ok s
  | _ => .error .typeError

/-- `pd.to_datetime(data['date'] + ' ' + data['time'])`: the row index.
The datetime values themselves are kept as their source text. -/
def mkIndex (rt : RawTable) : Except PyErr (List String) := do
  let ds ← colVals rt "date"
  let ts ← colVals rt "time"
  let dstrs ← ds.mapM cellToStr
  let tstrs ← ts.mapM cellToStr
  .ok (List.zipWith (fun d t => d ++ " " ++ t) dstrs tstrs)

/-- The timezone rewrite of `parse_mesor`:
`meta['timezone'].replace('UTC+', 'Etc/GMT+').replace('UTC-', 'Etc/GMT-')`. -/
def tzRewrite (s : String) : String :=
  pyReplace (pyReplace s "UTC+" "Etc/GMT+") "UTC-" "Etc/GMT-"

/-- A decimal digit string as written in a zone name (no leading zeros). -/
def digitsCanon (l : List Char) : Option Nat :=
  if l ≠ [] ∧ l.all Char.isDigit ∧ (l = ['0'] ∨ l.headD '0' ≠ '0') then
    some (natOfDigits l)
  else none

/-- Modelled fragment of the zone database consulted by `tz_localize`: the
fixed-offset zones `Etc/GMT+0` … `Etc/GMT+12` and `Etc/GMT-0` … `Etc/GMT-14`
(whose UTC offset in hours is the negation of the signed number in the
name), plus the zero-offset aliases.  Any other name is treated as unknown;
zone names outside this fragment do not arise from well-formed MESOR
timezones. -/
def tzOffset (s : String) : Option Int :=
  if s = "UTC" ∨ s = "GMT" ∨ s = "Etc/UTC" ∨ s = "Etc/GMT" ∨ s = "Etc/GMT0" then some 0
  else if pyStartsW s "Etc/GMT+" then
    (digitsCanon (s.toList.drop 8)).bind
      (fun n => if n ≤ 12 then some (-(n : Int)) else none)
  else if pyStartsW s "Etc/GMT-" then
    (digitsCanon (s.toList.drop 8)).bind
      (fun n => if n ≤ 14 then some ((n : Int)) else none)
  else none

/-- The returned time-series table: row index (with its fixed UTC offset in
hours, `none` when timezone-naive), column names and cell rows. -/
structure DataTable where
  index : List String
  tz : Option Int
  cols : List String
  rows : List (List Cell)
  deriving DecidableEq, Repr

/-- `data.drop(columns=['date', 'time'])`, column-name part. -/
def dropNames (names : List String) : List String :=
  names.filter (fun c => c ≠ "date" ∧ c ≠ "time")

/-- `data.drop(columns=['date', 'time'])`, row part. -/
def maskRow (names : List String) (r : List Cell) : List Cell :=
  ((names.zip r).filter (fun p => p.1 ≠ "date" ∧ p.1 ≠ "time")).map Prod.snd

/-- The fixed source-code → pvlib variable-name dictionary. -/
def MESOR_VARIABLE_MAP : List (String × String) :=
  [("t_air", "temp_air"), ("rh", "relative_humidity"), ("ws", "wind_speed"),
   ("wd", "wind_direction"), ("bp", "air_pressure"), ("GHI", "ghi"),
   ("DNI", "dni"), ("DHI", "dhi")]

/-- Rename one column per `MESOR_VARIABLE_MAP`; unmapped names are kept. -/
def mapName (c : String) : String :=
  match MESOR_VARIABLE_MAP.find? (fun p => p.1 = c) with
  | some p => p.2
  | none => c

/-- `data.rename(columns=MESOR_VARIABLE_MAP)` when `map_variables` is set. -/
def renameCols (mv : Bool) (cols : List String) : List String :=
  if mv then cols.map mapName else cols

/-- The timezone branch of `parse_mesor`: `if meta['timezone'] != 'TST'`,
rewrite the timezone, localize, and drop the `date`/`time` columns.  The
initial `{}` value of `meta['timezone']` compares unequal to `'TST'` and
then fails with `AttributeError` on `.replace`.  Returns the index offset,
the remaining column names and the remaining rows. -/
def tzStep (tz : TzField) (rt : RawTable) :
    Except PyErr (Option Int × List String × List (List Cell)) :=
  match tz with
  | .str s =>
    if s = "TST" then .ok (none, rt.names, rt.rows)
    else
      match tzOffset (tzRewrite s) with
      | some off => .ok (some off, dropNames rt.names, rt.rows.map (maskRow rt.names))
      | none => .error (.unknownTimeZone (tzRewrite s))
  | .initDict => .error (.attributeError "replace")

/-- Everything `parse_mesor` does after the header scan: `pd.read_csv`, the
datetime index, the timezone branch, and the optional variable renaming. -/
def buildTable (meta : Meta) (names : List String) (rest : List String) (mv : Bool) :
    Except PyErr DataTable := do
  let rt ← read_csv names rest
  let idx ← mkIndex rt
  let res ← tzStep meta.timezone rt
  .ok ⟨idx, res.1, renameCols mv res.2.1, res.2.2⟩

/-- Outcome of a `parse_mesor` call: non-termination, an exception, or the
`(data, meta)` pair. -/
inductive POut
  | diverges
  | fail (e : PyErr)
  | ok (t : DataTable) (m : Meta)
  deriving DecidableEq, Repr

/-- `parse_mesor(fbuf, map_variables=mv)` on the stream's lines. -/
def parse_mesor (lines : List String) (mv : Bool) : POut :=
  let fmt := lstripHash (lines.headD "")
  match scanHeader (lines.drop 1) (initMeta fmt) [] with
  | .diverges => .diverges
  | .fail e => .fail e
  | .done m names rest =>
    match buildTable m names rest mv with
    | .error e => .fail e
    | .ok t => .ok t m

/-- Splitting a file's contents into the lines `readline` yields. -/
def fileLines (content : String) : List String := pySplitOn content "\n"

/-- `read_mesor(filename, map_variables=mv)`: open the file and hand its
line stream to `parse_mesor`, returning its result unchanged. -/
def read_mesor (content : String) (mv : Bool) : POut :=
  parse_mesor (fileLines content) mv

/-- The reverse of `MESOR_VARIABLE_MAP`, sending a canonical pvlib name back
to its MESOR channel code (the inspection dictionary of the specification's
round-trip property). -/
def revMapName (c : String) : String :=
  match MESOR_VARIABLE_MAP.find? (fun p => p.2 = c) with
  | some p => p.1
  | none => c

/-! ## Theorems -/

/-- **C1.**  The specification requires a truncated header (end of stream
before `#begindata`) to fail with a `TruncatedHeaderError`.  The source
instead loops forever: at EOF `readline()` returns `''`, which matches no
branch of the `elif` chain, and the `while True` loop has no exit.  On the
concrete truncated stream below, the parse diverges and neither returns a
result nor raises. -/
theorem C1_truncated_header_loops_forever :
    parse_mesor ["#MESOR 1.0", "#timezone UTC+1"] true = POut.diverges := by
  decide

/-- **C2**, counterexample.  On the specification's own scenario line
`#comment instrument 12 sensitivity: 14.7 uV/Wm-2`, the header scan does
not succeed with `instruments['12']['sensitivity'] == 14.7`: the extracted
value is the whole text `14.7 uV/Wm-2` after the first `:`, `float` rejects
it, and the parse fails with a `ValueError`. -/
theorem C2_sensitivity_scenario_raises :
    parse_mesor
      ["#MESOR", "#comment instrument 12 sensitivity: 14.7 uV/Wm-2", "#begindata"] true
      = POut.fail (PyErr.valueError "14.7 uV/Wm-2") := by
  decide

/-- **C2**, amended.  For a `#comment instrument` header line with at least
three tokens whose parameter name is in the numeric allow-list
(`mult_cc`, `off_cc`, `sensitivity`), the whitespace-normalized value after
the line's first `:` is parsed with `float`: the scan step fails with a
`ValueError` exactly when the value is not numeric, and otherwise stores the
parsed number for that instrument and parameter. -/
theorem C2_numeric_params_are_floats (line : String) (meta : Meta) (instId : String)
    (h2 : (pySplit line).get? 2 = some instId)
    (hp : instrumentParam line ∈ numericParams) :
    (pyFloat (instrumentValue line) = none →
      instrumentStep line meta = .error (.valueError (instrumentValue line))) ∧
    (∀ q, pyFloat (instrumentValue line) = some q →
      instrumentStep line meta = .ok { meta with instruments :=
        (updAssoc (instFamily meta instId) instId
          (updAssoc ((((instFamily meta instId).find?
              (fun q => q.1 = instId)).map Prod.snd).getD [])
            (instrumentParam line) (.num q))) }) := by
  constructor
  · intro hnone
    simp only [instrumentStep, pyIx, h2, bind, Except.bind, instParamVal,
      if_pos hp, hnone]
  · intro q hq
    simp only [instrumentStep, pyIx, h2, bind, Except.bind, instParamVal,
      if_pos hp, hq]

/-- Witness for `C2_numeric_params_are_floats` at the line
`#comment instrument 12 sensitivity: 14.7`, whose value parses as the
number 147/10. -/
theorem C2_numeric_params_are_floats_witness :
    ((pySplit "#comment instrument 12 sensitivity: 14.7").get? 2 = some "12" ∧
      instrumentParam "#comment instrument 12 sensitivity: 14.7" ∈ numericParams) ∧
    instrumentStep "#comment instrument 12 sensitivity: 14.7" (initMeta "M")
      = .ok { initMeta "M" with
          instruments := [("12", [("sensitivity", PyVal.num ⟨147, 10⟩)])] } :=
  ⟨⟨by decide, by decide⟩,
    (C2_numeric_params_are_floats "#comment instrument 12 sensitivity: 14.7"
      (initMeta "M") "12" (by decide) (by decide)).2 ⟨147, 10⟩ (by decide)⟩

/-- **C6.**  For every offset `N ≤ 14`, the zone identifier handed to
`tz_localize` is obtained from `UTC+N` / `UTC-N` by the textual rewrite
`UTC±` → `Etc/GMT±`, preserving the written sign: `UTC+N` yields the zone
name `Etc/GMT+N`, which textually reads `GMT+N`, and `UTC-N` yields
`Etc/GMT-N`. -/
theorem C6_tz_rewrite_preserves_written_sign (n : ℕ) (h : n ≤ 14) :
    tzRewrite ("UTC+" ++ toString n) = "Etc/GMT+" ++ toString n ∧
    tzRewrite ("UTC-" ++ toString n) = "Etc/GMT-" ++ toString n := by
  revert h
  revert n
  decide

/-- Witness for `C6_tz_rewrite_preserves_written_sign` at `N = 2`. -/
theorem C6_tz_rewrite_preserves_written_sign_witness :
    (2 ≤ 14) ∧
      (tzRewrite "UTC+2" = "Etc/GMT+2" ∧ tzRewrite "UTC-2" = "Etc/GMT-2") :=
  ⟨by decide, C6_tz_rewrite_preserves_written_sign 2 (by decide)⟩

/-- **C9.**  `read_mesor` opens the file and returns exactly what
`parse_mesor` produces on the file's line stream with the same
`map_variables` flag; the wrapper adds no behaviour. -/
theorem C9_read_mesor_is_parse_mesor (content : String) (mv : Bool) :
    read_mesor content mv = parse_mesor (fileLines content) mv := rfl

/-- Witness for `C9_read_mesor_is_parse_mesor` (its binders are plain data,
instantiated at a concrete file). -/
theorem C9_read_mesor_is_parse_mesor_witness :
    read_mesor "#MESOR\n#begindata\n" true
      = parse_mesor (fileLines "#MESOR\n#begindata\n") true :=
  C9_read_mesor_is_parse_mesor "#MESOR\n#begindata\n" true

/-! ### Helper lemmas on the table builder -/

theorem except_bind_ok {α β : Type} (ex : Except PyErr α) (g : α → Except PyErr β)
    (w : β) : (ex >>= g) = .ok w ↔ ∃ u, ex = .ok u ∧ g u = .ok w := by
  cases ex with
  | error e => simp [Bind.bind, Except.bind]
  | ok u => simp [Bind.bind, Except.bind]

theorem buildRows_ok_of_le (w : Nat) (rs : List (List String))
    (h : ∀ r ∈ rs, r.length ≤ w) :
    buildRows w rs
      = .ok (rs.map (fun r => r.map mkCell ++ List.replicate (w - r.length) Cell.na)) := by
  induction rs with
  | nil => rfl
  | cons r rs ih =>
    have hr : ¬ w < r.length := Nat.not_lt.mpr (h r (by simp))
    have ih' := ih (fun rw hrw => h rw (by simp [hrw]))
    simp only [buildRows, if_neg hr, ih', List.map_cons]
    rfl

theorem buildRows_ok_shape (w : Nat) (rs : List (List String))
    (out : List (List Cell)) (h : buildRows w rs = .ok out) :
    out = rs.map (fun r => r.map mkCell ++ List.replicate (w - r.length) Cell.na) := by
  induction rs generalizing out with
  | nil => cases h; rfl
  | cons r rs ih =>
    by_cases hw : w < r.length
    · rw [buildRows, if_pos hw] at h; cases h
    · rw [buildRows, if_neg hw] at h
      rw [except_bind_ok] at h
      obtain ⟨rest, hb, hok⟩ := h
      cases hok
      simp [ih rest hb]

theorem read_csv_ok_inv {names lines : List String} {rt : RawTable}
    (h : read_csv names lines = .ok rt) :
    names.Nodup ∧ rt.names = names ∧ dataRows lines ≠ [] ∧
      rt.rows = (dataRows lines).map
        (fun r => r.map mkCell ++ List.replicate (names.length - r.length) Cell.na) := by
  unfold read_csv at h
  by_cases hn : names.Nodup
  · rw [if_pos hn] at h
    by_cases he : dataRows lines = []
    · rw [if_pos he] at h; cases h
    · rw [if_neg he] at h
      rw [except_bind_ok] at h
      obtain ⟨rows, hb, hok⟩ := h
      cases hok
      exact ⟨hn, rfl, he, buildRows_ok_shape _ _ _ hb⟩
  · rw [if_neg hn] at h; cases h

/-- **C3**, counterexample.  A data row with one fewer field than the
declared channels does not raise: `pd.read_csv` pads the missing trailing
field with the missing-value marker and the parse returns a table.  Here
the second data row has three fields against four declared channels, and
the parse succeeds with `NA` in the final cell of that row. -/
theorem C3_short_row_is_padded_not_rejected :
    parse_mesor
      ["#MESOR", "#timezone UTC+1", "#channel date", "#channel time",
       "#channel GHI", "#channel DNI", "#begindata",
       "2005-02-01 01:00:00 5.0 6.0", "2005-02-01 02:00:00 7.0"] false
      = POut.ok
          ⟨["2005-02-01 01:00:00", "2005-02-01 02:00:00"], some (-1),
           ["GHI", "DNI"],
           [[Cell.num ⟨5, 1⟩, Cell.num ⟨6, 1⟩], [Cell.num ⟨7, 1⟩, Cell.na]]⟩
          { format := "MESOR", IPR := [], location := [], spectral := [],
            comments := [], timezone := .str "UTC+1", instruments := [],
            channels := [("date", ""), ("time", ""), ("GHI", ""), ("DNI", "")] } := by
  decide

/-- **C3**, amended.  A data-section row with *fewer* whitespace fields
than the expected column count — in particular one fewer than the declared
channels — is not rejected: `pd.read_csv` keeps the row, filling the
missing trailing fields with the missing-value marker, and a table is
returned.  Concretely, when every data row fits in the declared width, the
data-section read succeeds and every short row is NA-padded on the right.
(Whether an over-wide row aborts depends on pandas' implicit-index
handling and is left unsettled.) -/
theorem C3_rows_within_width_succeed (names lines : List String)
    (hn : names.Nodup) (hne : dataRows lines ≠ [])
    (hle : ∀ r ∈ dataRows lines, r.length ≤ names.length) :
    read_csv names lines = .ok ⟨names,
      (dataRows lines).map
        (fun r => r.map mkCell ++ List.replicate (names.length - r.length) Cell.na)⟩ := by
  unfold read_csv
  rw [if_pos hn, if_neg hne, buildRows_ok_of_le _ _ hle]
  rfl

/-- Witness for `C3_rows_within_width_succeed`: four columns, one full row
and one row of three fields, which is padded with `NA`. -/
theorem C3_rows_within_width_succeed_witness :
    (["date", "time", "GHI", "DNI"] : List String).Nodup ∧
      dataRows ["2005-02-01 01:00:00 5.0 6.0", "2005-02-01 02:00:00 7.0"] ≠ [] ∧
      read_csv ["date", "time", "GHI", "DNI"]
        ["2005-02-01 01:00:00 5.0 6.0", "2005-02-01 02:00:00 7.0"]
        = .ok ⟨["date", "time", "GHI", "DNI"],
            (dataRows ["2005-02-01 01:00:00 5.0 6.0", "2005-02-01 02:00:00 7.0"]).map
              (fun r => r.map mkCell ++ List.replicate (4 - r.length) Cell.na)⟩ :=
  ⟨by decide, by decide,
    C3_rows_within_width_succeed _ _ (by decide) (by decide) (by decide)⟩

theorem okCont_inj {m2 : Meta} {ns2 : List String} {m' : Meta} {ns' : List String}
    (h : (Except.ok (HOut.cont m2 ns2) : Except PyErr HOut) = .ok (.cont m' ns')) :
    m' = m2 ∧ ns' = ns2 := by
  injection h with h1
  injection h1 with h2 h3
  exact ⟨h2.symm, h3.symm⟩

theorem instrumentStep_channels {line : String} {m m2 : Meta}
    (h : instrumentStep line m = .ok m2) : m2.channels = m.channels := by
  unfold instrumentStep at h
  rw [except_bind_ok] at h
  obtain ⟨instId, h0, h⟩ := h
  rw [except_bind_ok] at h
  obtain ⟨val, h1, h⟩ := h
  injection h with h2
  rw [← h2]

theorem headerLine_cont_channels {line : String} {m : Meta} {ns : List String}
    {m' : Meta} {ns' : List String}
    (h : headerLine line m ns = .ok (.cont m' ns')) :
    (m'.channels = m.channels ∧ ns' = ns) ∨
    (∃ ch d, m'.channels = updAssoc m.channels ch d ∧ ns' = ns ++ [ch]) := by
  unfold headerLine at h
  split at h
  · obtain ⟨rfl, rfl⟩ := okCont_inj h
    exact Or.inl ⟨rfl, rfl⟩
  · split at h
    · rw [except_bind_ok] at h
      obtain ⟨t0, -, h⟩ := h
      obtain ⟨rfl, rfl⟩ := okCont_inj h
      exact Or.inl ⟨rfl, rfl⟩
    · split at h
      · rw [except_bind_ok] at h
        obtain ⟨t1, -, h⟩ := h
        obtain ⟨rfl, rfl⟩ := okCont_inj h
        exact Or.inl ⟨rfl, rfl⟩
      · split at h
        · rw [except_bind_ok] at h
          obtain ⟨seg, -, h⟩ := h
          rw [except_bind_ok] at h
          obtain ⟨k0, -, h⟩ := h
          rw [except_bind_ok] at h
          obtain ⟨v, -, h⟩ := h
          obtain ⟨rfl, rfl⟩ := okCont_inj h
          exact Or.inl ⟨rfl, rfl⟩
        · split at h
          · rw [except_bind_ok] at h
            obtain ⟨seg, -, h⟩ := h
            rw [except_bind_ok] at h
            obtain ⟨k0, -, h⟩ := h
            obtain ⟨rfl, rfl⟩ := okCont_inj h
            exact Or.inl ⟨rfl, rfl⟩
          · split at h
            · rw [except_bind_ok] at h
              obtain ⟨ch, -, h⟩ := h
              obtain ⟨rfl, rfl⟩ := okCont_inj h
              exact Or.inr ⟨ch, pyJoin " " ((pySplit line).drop 2), rfl, rfl⟩
            · split at h
              · rw [except_bind_ok] at h
                obtain ⟨m2, hstep, h⟩ := h
                obtain ⟨rfl, rfl⟩ := okCont_inj h
                exact Or.inl ⟨instrumentStep_channels hstep, rfl⟩
              · split at h
                · obtain ⟨rfl, rfl⟩ := okCont_inj h
                  exact Or.inl ⟨rfl, rfl⟩
                · split at h
                  · cases h
                  · obtain ⟨rfl, rfl⟩ := okCont_inj h
                    exact Or.inl ⟨rfl, rfl⟩

theorem updAssoc_of_not_mem {α : Type} {l : List (String × α)} {k : String} (v : α)
    (h : k ∉ l.map Prod.fst) : updAssoc l k v = l ++ [(k, v)] := by
  unfold updAssoc
  rw [if_neg h]

/-- The channel dictionary and the column-name list are built together: as
long as no channel code repeats, the keys of `channels` in insertion order
are exactly the `names` list handed to `pd.read_csv`. -/
theorem scan_channels_inv (ls : List String) :
    ∀ (m : Meta) (ns : List String) (m' : Meta) (ns' rest : List String),
      scanHeader ls m ns = .done m' ns' rest →
      (ns.Nodup → m.channels.map Prod.fst = ns) →
      (ns'.Nodup → m'.channels.map Prod.fst = ns') := by
  induction ls with
  | nil => intro m ns m' ns' rest h; cases h
  | cons l ls ih =>
    intro m ns m' ns' rest h hInv
    rw [scanHeader] at h
    cases hl : headerLine l m ns with
    | error e => rw [hl] at h; cases h
    | ok o =>
      rw [hl] at h
      cases o with
      | stop => cases h; exact hInv
      | cont m2 ns2 =>
        refine ih m2 ns2 m' ns' rest h ?_
        intro hnd
        rcases headerLine_cont_channels hl with ⟨hc, hn⟩ | ⟨ch, d, hc, hn⟩
        · subst hn
          rw [hc]
          exact hInv hnd
        · subst hn
          have hns : ns.Nodup ∧ ch ∉ ns := by
            rw [List.nodup_append] at hnd
            refine ⟨hnd.1, fun hm => ?_⟩
            exact hnd.2.2 hm (by simp)
          have hkeys := hInv hns.1
          rw [hc, updAssoc_of_not_mem _ (by rw [hkeys]; exact hns.2)]
          simp [hkeys]

theorem colVals_ok_mem {rt : RawTable} {c : String} {v : List Cell}
    (h : colVals rt c = .ok v) : c ∈ rt.names := by
  unfold colVals at h
  by_cases hm : c ∈ rt.names
  · exact hm
  · rw [if_neg hm] at h; cases h

theorem mkIndex_ok_mem {rt : RawTable} {idx : List String}
    (h : mkIndex rt = .ok idx) : "date" ∈ rt.names ∧ "time" ∈ rt.names := by
  unfold mkIndex at h
  rw [except_bind_ok] at h
  obtain ⟨ds, hd, h⟩ := h
  rw [except_bind_ok] at h
  obtain ⟨ts, ht, h⟩ := h
  exact ⟨colVals_ok_mem hd, colVals_ok_mem ht⟩

theorem tzStep_ok_inv {tz : TzField} {rt : RawTable}
    {res : Option Int × List String × List (List Cell)}
    (h : tzStep tz rt = .ok res) :
    (tz = .str "TST" ∧ res = (none, rt.names, rt.rows)) ∨
    (∃ s off, tz = .str s ∧ s ≠ "TST" ∧ tzOffset (tzRewrite s) = some off ∧
      res = (some off, dropNames rt.names, rt.rows.map (maskRow rt.names))) := by
  cases tz with
  | initDict => cases h
  | str s =>
    have h' : (if s = "TST" then
        (Except.ok (none, rt.names, rt.rows) :
          Except PyErr (Option Int × List String × List (List Cell)))
      else
        match tzOffset (tzRewrite s) with
        | some off => .ok (some off, dropNames rt.names, rt.rows.map (maskRow rt.names))
        | none => .error (.unknownTimeZone (tzRewrite s))) = .ok res := h
    by_cases hts : s = "TST"
    · rw [if_pos hts] at h'
      exact Or.inl ⟨by rw [hts], (Except.ok.inj h').symm⟩
    · rw [if_neg hts] at h'
      cases ho : tzOffset (tzRewrite s) with
      | none => rw [ho] at h'; cases h'
      | some off =>
        rw [ho] at h'
        exact Or.inr ⟨s, off, rfl, hts, ho, (Except.ok.inj h').symm⟩

theorem buildTable_ok_inv {meta : Meta} {names rest : List String} {mv : Bool}
    {t : DataTable} (h : buildTable meta names rest mv = .ok t) :
    ∃ rt, read_csv names rest = .ok rt ∧
      (∃ idx, mkIndex rt = .ok idx ∧ t.index = idx) ∧
      ((meta.timezone = .str "TST" ∧ t.tz = none ∧
          t.cols = renameCols mv rt.names ∧ t.rows = rt.rows) ∨
       (∃ s off, meta.timezone = .str s ∧ s ≠ "TST" ∧
          tzOffset (tzRewrite s) = some off ∧ t.tz = some off ∧
          t.cols = renameCols mv (dropNames rt.names) ∧
          t.rows = rt.rows.map (maskRow rt.names))) := by
  unfold buildTable at h
  rw [except_bind_ok] at h
  obtain ⟨rt, hr, h⟩ := h
  rw [except_bind_ok] at h
  obtain ⟨idx, hi, h⟩ := h
  rw [except_bind_ok] at h
  obtain ⟨res, hstep, h⟩ := h
  injection h with h2
  refine ⟨rt, hr, ⟨idx, hi, by rw [← h2]⟩, ?_⟩
  rcases tzStep_ok_inv hstep with ⟨htz, hres⟩ | ⟨s, off, htz, hne, hoff, hres⟩
  · subst hres
    exact Or.inl ⟨htz, by rw [← h2], by rw [← h2], by rw [← h2]⟩
  · subst hres
    exact Or.inr ⟨s, off, htz, hne, hoff, by rw [← h2], by rw [← h2], by rw [← h2]⟩

theorem parse_ok_inv {lines : List String} {mv : Bool} {t : DataTable} {m : Meta}
    (h : parse_mesor lines mv = .ok t m) :
    ∃ names rest,
      scanHeader (lines.drop 1) (initMeta (lstripHash (lines.headD ""))) []
        = .done m names rest ∧
      buildTable m names rest mv = .ok t := by
  simp only [parse_mesor] at h
  cases hs : scanHeader (lines.drop 1) (initMeta (lstripHash (lines.headD ""))) [] with
  | diverges => rw [hs] at h; cases h
  | fail e => rw [hs] at h; cases h
  | done m2 names rest =>
    rw [hs] at h
    have h' : (match buildTable m2 names rest mv with
      | .error e => POut.fail e
      | .ok t2 => POut.ok t2 m2) = POut.ok t m := h
    cases hb : buildTable m2 names rest mv with
    | error e => rw [hb] at h'; cases h'
    | ok t2 =>
      rw [hb] at h'
      injection h' with h1 h2
      subst h1
      subst h2
      exact ⟨names, rest, rfl, hb⟩

/-! ### Helper lemmas on the variable-name map -/

theorem mapName_eq_of_find (c : String) :
    mapName c = c ∨ (c, mapName c) ∈ MESOR_VARIABLE_MAP := by
  rcases hf : MESOR_VARIABLE_MAP.find? (fun p => p.1 = c) with - | p
  · left
    unfold mapName
    rw [hf]
  · right
    have hm := List.mem_of_find?_eq_some hf
    have hp := List.find?_some hf
    have h1 : p.1 = c := of_decide_eq_true hp
    have h2 : mapName c = p.2 := by unfold mapName; rw [hf]
    rw [h2, ← h1]
    exact hm

theorem mapName_to_date_or_time {c w : String} (hw : w = "date" ∨ w = "time")
    (h : mapName c = w) : c = w := by
  rcases mapName_eq_of_find c with h1 | h1
  · rw [← h1, h]
  · rw [h] at h1
    rcases hw with rfl | rfl <;> simp [MESOR_VARIABLE_MAP] at h1

theorem mem_dropNames_iff {cols : List String} {c : String} :
    c ∈ dropNames cols ↔ c ∈ cols ∧ c ≠ "date" ∧ c ≠ "time" := by
  unfold dropNames
  rw [List.mem_filter]
  constructor
  · rintro ⟨h1, h2⟩
    exact ⟨h1, of_decide_eq_true h2⟩
  · rintro ⟨h1, h2⟩
    exact ⟨h1, decide_eq_true h2⟩

theorem mem_renameCols_date_time {mv : Bool} {cols : List String} {w : String}
    (hw : w = "date" ∨ w = "time") (hc : w ∈ cols) : w ∈ renameCols mv cols := by
  have hself : mapName w = w := by rcases hw with rfl | rfl <;> decide
  cases mv with
  | false => exact hc
  | true =>
    show w ∈ cols.map mapName
    exact hself ▸ List.mem_map_of_mem mapName hc

theorem notMem_renameCols_dropNames {mv : Bool} {cols : List String} {w : String}
    (hw : w = "date" ∨ w = "time") : w ∉ renameCols mv (dropNames cols) := by
  intro hmem
  cases mv with
  | false =>
    have hmem' : w ∈ dropNames cols := hmem
    obtain ⟨-, h2, h3⟩ := mem_dropNames_iff.mp hmem'
    rcases hw with rfl | rfl
    · exact h2 rfl
    · exact h3 rfl
  | true =>
    have hmem' : w ∈ (dropNames cols).map mapName := hmem
    rw [List.mem_map] at hmem'
    obtain ⟨c, hc, hcmap⟩ := hmem'
    have hcw := mapName_to_date_or_time hw hcmap
    subst hcw
    obtain ⟨-, h2, h3⟩ := mem_dropNames_iff.mp hc
    rcases hw with rfl | rfl
    · exact h2 rfl
    · exact h3 rfl

/-- **C4**, counterexample.  The claim holds that `date` and `time` are two
additional leading columns *not* listed in `channels`.  In the source the
`pd.read_csv` column names come exclusively from `#channel` declarations, so
a parse can only succeed when `date` and `time` are themselves declared
channels: on the successful input below, `"date"` and `"time"` are keys of
the returned `channels` dictionary. -/
theorem C4_date_time_are_channel_keys :
    parse_mesor ["#MESOR", "#timezone TST", "#channel date", "#channel time",
      "#channel ghi", "#begindata", "2005-02-01 01:00:00 5.0"] false
      = POut.ok
          ⟨["2005-02-01 01:00:00"], none, ["date", "time", "ghi"],
           [[Cell.str "2005-02-01", Cell.str "01:00:00", Cell.num ⟨5, 1⟩]]⟩
          { format := "MESOR", IPR := [], location := [], spectral := [],
            comments := [], timezone := .str "TST", instruments := [],
            channels := [("date", ""), ("time", ""), ("ghi", "")] } ∧
    "date" ∈ ([("date", ""), ("time", ""), ("ghi", "")] : List (String × String)).map Prod.fst ∧
    "time" ∈ ([("date", ""), ("time", ""), ("ghi", "")] : List (String × String)).map Prod.fst := by
  refine ⟨by decide, by decide, by decide⟩

/-- **C4**, amended.  For every successful parse (without variable-name
mapping) the table's columns are exactly the keys of `channels` in
first-seen order — with `date` and `time` dropped when the index was
localized — and `date` and `time` are themselves keys of `channels`, not
two additional columns added by the parser. -/
theorem C4_columns_are_channel_keys (lines : List String) (t : DataTable) (m : Meta)
    (h : parse_mesor lines false = .ok t m) :
    "date" ∈ m.channels.map Prod.fst ∧ "time" ∈ m.channels.map Prod.fst ∧
    ((m.timezone = .str "TST" ∧ t.cols = m.channels.map Prod.fst) ∨
      t.cols = dropNames (m.channels.map Prod.fst)) := by
  obtain ⟨names, rest, hs, hb⟩ := parse_ok_inv h
  obtain ⟨rt, hr, ⟨idx, hi, -⟩, hcase⟩ := buildTable_ok_inv hb
  obtain ⟨hnodup, hrtnames, -, -⟩ := read_csv_ok_inv hr
  have hkeys : m.channels.map Prod.fst = names :=
    scan_channels_inv _ _ _ _ _ _ hs (fun _ => rfl) hnodup
  obtain ⟨hdate, htime⟩ := mkIndex_ok_mem hi
  rw [hrtnames] at hdate htime
  refine ⟨hkeys ▸ hdate, hkeys ▸ htime, ?_⟩
  rcases hcase with ⟨htz, -, hcols, -⟩ | ⟨s, off, -, -, -, -, hcols, -⟩
  · exact Or.inl ⟨htz, by rw [hcols, hrtnames, hkeys]; rfl⟩
  · exact Or.inr (by rw [hcols, hrtnames, hkeys]; rfl)

/-- Input, table and metadata for the `C4` witness. -/
def c4Lines : List String :=
  ["#MESOR", "#timezone UTC+1", "#channel date", "#channel time",
   "#channel GHI", "#channel DNI", "#begindata",
   "2005-02-01 01:00:00 5.0 6.0", "2005-02-01 02:00:00 7.0"]

def c4Table : DataTable :=
  ⟨["2005-02-01 01:00:00", "2005-02-01 02:00:00"], some (-1), ["GHI", "DNI"],
   [[Cell.num ⟨5, 1⟩, Cell.num ⟨6, 1⟩], [Cell.num ⟨7, 1⟩, Cell.na]]⟩

def c4Meta : Meta :=
  { format := "MESOR", IPR := [], location := [], spectral := [],
    comments := [], timezone := .str "UTC+1", instruments := [],
    channels := [("date", ""), ("time", ""), ("GHI", ""), ("DNI", "")] }

/-- Witness for `C4_columns_are_channel_keys` on a concrete successful
parse. -/
theorem C4_columns_are_channel_keys_witness :
    parse_mesor c4Lines false = POut.ok c4Table c4Meta ∧
    ("date" ∈ c4Meta.channels.map Prod.fst ∧
      "time" ∈ c4Meta.channels.map Prod.fst ∧
      ((c4Meta.timezone = .str "TST" ∧ c4Table.cols = c4Meta.channels.map Prod.fst) ∨
        c4Table.cols = dropNames (c4Meta.channels.map Prod.fst))) :=
  ⟨by decide, C4_columns_are_channel_keys c4Lines c4Table c4Meta (by decide)⟩

/-- **C5.**  For every successful parse: if the parsed timezone is `TST`,
the index is timezone-naive and the `date`/`time` columns are present;
otherwise the index carries a fixed offset and `date`/`time` are absent. -/
theorem C5_timezone_law (lines : List String) (mv : Bool) (t : DataTable) (m : Meta)
    (h : parse_mesor lines mv = .ok t m) :
    (m.timezone = .str "TST" →
      t.tz = none ∧ "date" ∈ t.cols ∧ "time" ∈ t.cols) ∧
    (m.timezone ≠ .str "TST" →
      (∃ off, t.tz = some off) ∧ "date" ∉ t.cols ∧ "time" ∉ t.cols) := by
  obtain ⟨names, rest, hs, hb⟩ := parse_ok_inv h
  obtain ⟨rt, hr, ⟨idx, hi, -⟩, hcase⟩ := buildTable_ok_inv hb
  obtain ⟨hdate, htime⟩ := mkIndex_ok_mem hi
  rcases hcase with ⟨htz, htznone, hcols, -⟩ | ⟨s, off, htz, hne, -, htzoff, hcols, -⟩
  · constructor
    · intro _
      refine ⟨htznone, ?_, ?_⟩
      · rw [hcols]; exact mem_renameCols_date_time (Or.inl rfl) hdate
      · rw [hcols]; exact mem_renameCols_date_time (Or.inr rfl) htime
    · intro hne2; exact absurd htz hne2
  · constructor
    · intro heq
      rw [htz] at heq
      injection heq with heq2
      exact absurd heq2 hne
    · intro _
      refine ⟨⟨off, htzoff⟩, ?_, ?_⟩
      · rw [hcols]; exact notMem_renameCols_dropNames (Or.inl rfl)
      · rw [hcols]; exact notMem_renameCols_dropNames (Or.inr rfl)

/-- Input, table and metadata for the `C5` witness. -/
def c5Lines : List String :=
  ["#MESOR", "#timezone TST", "#channel date", "#channel time",
   "#channel GHI", "#begindata", "2005-02-01 01:00:00 5.0"]

def c5Table : DataTable :=
  ⟨["2005-02-01 01:00:00"], none, ["date", "time", "ghi"],
   [[Cell.str "2005-02-01", Cell.str "01:00:00", Cell.num ⟨5, 1⟩]]⟩

def c5Meta : Meta :=
  { format := "MESOR", IPR := [], location := [], spectral := [],
    comments := [], timezone := .str "TST", instruments := [],
    channels := [("date", ""), ("time", ""), ("GHI", "")] }

/-- Witness for `C5_timezone_law` on a concrete `TST` parse. -/
theorem C5_timezone_law_witness :
    parse_mesor c5Lines true = POut.ok c5Table c5Meta ∧
    (c5Meta.timezone = .str "TST" →
      c5Table.tz = none ∧ "date" ∈ c5Table.cols ∧ "time" ∈ c5Table.cols) :=
  ⟨by decide, (C5_timezone_law c5Lines true c5Table c5Meta (by decide)).1⟩

/-- **C8**, counterexample.  A channel whose code is already a canonical
pvlib name is not a key of the fixed dictionary, so it keeps its name — but
applying the reverse dictionary to the resulting columns does *not* recover
the original channel codes: the retained column `ghi` maps back to `GHI`. -/
theorem C8_reverse_map_misses_canonical_channel :
    parse_mesor ["#MESOR", "#timezone TST", "#channel date", "#channel time",
      "#channel ghi", "#begindata", "2005-02-01 01:00:00 5.0"] true
      = POut.ok
          ⟨["2005-02-01 01:00:00"], none, ["date", "time", "ghi"],
           [[Cell.str "2005-02-01", Cell.str "01:00:00", Cell.num ⟨5, 1⟩]]⟩
          { format := "MESOR", IPR := [], location := [], spectral := [],
            comments := [], timezone := .str "TST", instruments := [],
            channels := [("date", ""), ("time", ""), ("ghi", "")] } ∧
    (["date", "time", "ghi"] : List String).map revMapName
      ≠ ([("date", ""), ("time", ""), ("ghi", "")] : List (String × String)).map Prod.fst := by
  refine ⟨by decide, by decide⟩

/-- **C8**, amended.  With `map_variables=True`, every column whose name is
a key of `MESOR_VARIABLE_MAP` is renamed to its canonical value and every
other column keeps its name; with `map_variables=False` no renaming occurs.
The reverse dictionary recovers the original channel code *provided* the
original name is not itself one of the canonical values (a channel already
named e.g. `ghi` maps back to `GHI` instead). -/
theorem C8_variable_map_round_trip :
    (∀ c v, (c, v) ∈ MESOR_VARIABLE_MAP → mapName c = v) ∧
    (∀ c, c ∉ MESOR_VARIABLE_MAP.map Prod.fst → mapName c = c) ∧
    (∀ c, c ∉ MESOR_VARIABLE_MAP.map Prod.snd → revMapName (mapName c) = c) ∧
    (∀ cols, renameCols false cols = cols) ∧
    (∀ cols, renameCols true cols = cols.map mapName) := by
  refine ⟨?_, ?_, ?_, fun _ => rfl, fun _ => rfl⟩
  · intro c v h
    have hall : ∀ p ∈ MESOR_VARIABLE_MAP, mapName p.1 = p.2 := by decide
    exact hall (c, v) h
  · intro c hc
    unfold mapName
    have hnone : MESOR_VARIABLE_MAP.find? (fun p => p.1 = c) = none := by
      rw [List.find?_eq_none]
      intro x hx hpx
      exact hc (of_decide_eq_true hpx ▸ List.mem_map_of_mem Prod.fst hx)
    rw [hnone]
  · intro c hc
    rcases mapName_eq_of_find c with h1 | h1
    · rw [h1]
      unfold revMapName
      have hnone : MESOR_VARIABLE_MAP.find? (fun p => p.2 = c) = none := by
        rw [List.find?_eq_none]
        intro x hx hpx
        exact hc (of_decide_eq_true hpx ▸ List.mem_map_of_mem Prod.snd hx)
      rw [hnone]
    · have hall : ∀ p ∈ MESOR_VARIABLE_MAP, revMapName p.2 = p.1 := by decide
      exact hall (c, mapName c) h1

/-- Witness for `C8_variable_map_round_trip`: a mapped key and an unmapped
channel code round-tripping. -/
theorem C8_variable_map_round_trip_witness :
    (("GHI", "ghi") ∈ MESOR_VARIABLE_MAP ∧ mapName "GHI" = "ghi") ∧
    ("wd_var" ∉ MESOR_VARIABLE_MAP.map Prod.snd ∧
      revMapName (mapName "wd_var") = "wd_var") :=
  ⟨⟨by decide, C8_variable_map_round_trip.1 "GHI" "ghi" (by decide)⟩,
    ⟨by decide, C8_variable_map_round_trip.2.2.1 "wd_var" (by decide)⟩⟩

/-- **C10.**  A `#timezone` line is a de-facto precondition of every
successful parse: when the header scan reaches `#begindata` with
`meta['timezone']` still holding its initial `{}` value, `{} != 'TST'`
holds, the rewrite step calls `.replace` on a dict, and the parse raises
before returning any table — if `pd.read_csv` and the index construction
succeed, the error is precisely the `AttributeError` from `{}.replace`. -/
theorem C10_missing_timezone_is_fatal (lines : List String) (mv : Bool)
    (m : Meta) (names rest : List String)
    (hs : scanHeader (lines.drop 1) (initMeta (lstripHash (lines.headD ""))) []
      = .done m names rest)
    (htz : m.timezone = .initDict) :
    (∀ t m', parse_mesor lines mv ≠ .ok t m') ∧
    (∀ rt, read_csv names rest = .ok rt → ∀ idx, mkIndex rt = .ok idx →
      parse_mesor lines mv = .fail (.attributeError "replace")) := by
  constructor
  · intro t m' hok
    obtain ⟨names2, rest2, hs2, hb2⟩ := parse_ok_inv hok
    rw [hs] at hs2
    injection hs2 with h1 h2 h3
    subst h1
    obtain ⟨rt, -, -, hcase⟩ := buildTable_ok_inv hb2
    rcases hcase with ⟨htz2, -⟩ | ⟨s, off, htz2, -⟩ <;> rw [htz] at htz2 <;> cases htz2
  · intro rt hrt idx hidx
    have hbt : buildTable m names rest mv = .error (.attributeError "replace") := by
      unfold buildTable
      rw [hrt]
      simp only [bind, Except.bind, hidx, htz, tzStep]
    simp only [parse_mesor, hs, hbt]

/-- Input and metadata for the `C10` witness. -/
def c10Lines : List String :=
  ["#MESOR", "#channel date", "#channel time", "#channel v",
   "#begindata", "2005-02-01 01:00:00 1.0"]

def c10Meta : Meta :=
  { format := "MESOR", IPR := [], location := [], spectral := [],
    comments := [], timezone := .initDict, instruments := [],
    channels := [("date", ""), ("time", ""), ("v", "")] }

/-- Witness for `C10_missing_timezone_is_fatal`: a header with channels but
no `#timezone` line, on which the data read and the index both succeed and
the parse fails with the `AttributeError`. -/
theorem C10_missing_timezone_is_fatal_witness :
    (scanHeader (c10Lines.drop 1) (initMeta (lstripHash (c10Lines.headD ""))) []
      = .done c10Meta ["date", "time", "v"] ["2005-02-01 01:00:00 1.0"]) ∧
    parse_mesor c10Lines true = POut.fail (PyErr.attributeError "replace") :=
  ⟨by decide,
    (C10_missing_timezone_is_fatal c10Lines true c10Meta
      ["date", "time", "v"] ["2005-02-01 01:00:00 1.0"]
      (by decide) (by decide)).2
      ⟨["date", "time", "v"],
        [[Cell.str "2005-02-01", Cell.str "01:00:00", Cell.num ⟨1, 1⟩]]⟩
      (by decide) ["2005-02-01 01:00:00"] (by decide)⟩

end Mesor
